import Mathlib

/-!
Shallow embedding of the Nano-Banana MCP server (src/index.ts).

The server is a single class with five mutable fields; we model it as a
pure state-passing interpreter.  External collaborators (the filesystem,
the Gemini HTTP client, the timestamp/random file-name source) are
modelled as an explicit environment record, so every handler is a pure
function from environment, state and arguments to an outcome consisting
of the MCP result, the successor state, and the observable effects
(requests issued to the external service, files written).
-/

namespace NanoBanana

/-- Untyped JSON-like values, as they arrive in request.params.arguments.
The TypeScript code casts these without runtime validation, so the model
keeps them untyped as well. -/
inductive JValue where
  | str (s : String)
  | num (n : Int)
  | bool (b : Bool)
  | null
  | arr (xs : List JValue)

mutual

/-- Decidable equality for JValue (manual, because of the nested list). -/
def JValue.decEq : (a b : JValue) → Decidable (a = b)
  | .str x, .str y => decidable_of_iff (x = y) (by simp)
  | .num x, .num y => decidable_of_iff (x = y) (by simp)
  | .bool x, .bool y => decidable_of_iff (x = y) (by simp)
  | .null, .null => isTrue rfl
  | .arr xs, .arr ys =>
      match JValue.decEqList xs ys with
      | isTrue h => isTrue (by rw [h])
      | isFalse h => isFalse (fun hh => h (by cases hh; rfl))
  | .str _, .num _ => isFalse (fun h => nomatch h)
  | .str _, .bool _ => isFalse (fun h => nomatch h)
  | .str _, .null => isFalse (fun h => nomatch h)
  | .str _, .arr _ => isFalse (fun h => nomatch h)
  | .num _, .str _ => isFalse (fun h => nomatch h)
  | .num _, .bool _ => isFalse (fun h => nomatch h)
  | .num _, .null => isFalse (fun h => nomatch h)
  | .num _, .arr _ => isFalse (fun h => nomatch h)
  | .bool _, .str _ => isFalse (fun h => nomatch h)
  | .bool _, .num _ => isFalse (fun h => nomatch h)
  | .bool _, .null => isFalse (fun h => nomatch h)
  | .bool _, .arr _ => isFalse (fun h => nomatch h)
  | .null, .str _ => isFalse (fun h => nomatch h)
  | .null, .num _ => isFalse (fun h => nomatch h)
  | .null, .bool _ => isFalse (fun h => nomatch h)
  | .null, .arr _ => isFalse (fun h => nomatch h)
  | .arr _, .str _ => isFalse (fun h => nomatch h)
  | .arr _, .num _ => isFalse (fun h => nomatch h)
  | .arr _, .bool _ => isFalse (fun h => nomatch h)
  | .arr _, .null => isFalse (fun h => nomatch h)

/-- Decidable equality for lists of JValue. -/
def JValue.decEqList : (a b : List JValue) → Decidable (a = b)
  | [], [] => isTrue rfl
  | [], _ :: _ => isFalse (fun h => nomatch h)
  | _ :: _, [] => isFalse (fun h => nomatch h)
  | x :: xs, y :: ys =>
      match JValue.decEq x y, JValue.decEqList xs ys with
      | isTrue h1, isTrue h2 => isTrue (by rw [h1, h2])
      | isFalse h1, _ => isFalse (fun h => by cases h; exact h1 rfl)
      | _, isFalse h2 => isFalse (fun h => by cases h; exact h2 rfl)

end

instance : DecidableEq JValue := JValue.decEq

/-- Arguments object of a tool call: association list keyed by name. -/
abbrev Args := List (String × JValue)

/-- The zod-validated configuration record (ConfigSchema). -/
structure Config where
  geminiApiKey : String
  baseUrl : Option String
deriving DecidableEq

/-- Model of the constructed GoogleGenAI client: the parameters it was
built with.  Only its null-ness and parameters are observable. -/
structure Client where
  apiKey : String
  baseUrl : Option String
deriving DecidableEq

/-- Provenance of the active credential (this.configSource). -/
inductive ConfigSource where
  | environment
  | config_file
  | not_configured
deriving DecidableEq

/-- The mutable fields of the NanoBananaMCP class, plus the persisted
configuration file (written by saveConfig), threaded explicitly. -/
structure ServerState where
  config : Option Config
  genAI : Option Client
  lastImagePath : Option String
  configSource : ConfigSource
  configFile : Option Config
deriving DecidableEq

/-- MCP error codes used by the server (numeric values from the SDK). -/
inductive ErrCode where
  | MethodNotFound
  | InvalidParams
  | InvalidRequest
  | InternalError
deriving DecidableEq

/-- Numeric value of each code, as used in the message of McpError. -/
def ErrCode.num : ErrCode → Int
  | .MethodNotFound => -32601
  | .InvalidParams => -32602
  | .InvalidRequest => -32600
  | .InternalError => -32603

/-- An McpError: code plus the message passed to the constructor. -/
structure McpError where
  code : ErrCode
  message : String
deriving DecidableEq

/-- The SDK constructor prepends the code to the Error message field;
this is what error.message reads back when an McpError is re-wrapped. -/
def McpError.fullMessage (e : McpError) : String :=
  "MCP error " ++ toString e.code.num ++ ": " ++ e.message

/-- One item of an MCP tool result: a text segment, or an image segment
carrying base64 data and a mime type. -/
inductive ContentItem where
  | text (s : String)
  | image (data : String) (mimeType : String)
deriving DecidableEq

/-- A successful CallToolResult. -/
structure CallToolResult where
  content : List ContentItem
deriving DecidableEq

/-- inlineData of a response part (both fields may be absent). -/
structure InlineData where
  data : Option String
  mimeType : Option String
deriving DecidableEq

/-- One part of a response candidate. -/
structure RespPart where
  text : Option String
  inlineData : Option InlineData
deriving DecidableEq

/-- candidate.content (its parts list may be absent). -/
structure CandContent where
  parts : Option (List RespPart)
deriving DecidableEq

/-- One candidate of a Gemini response. -/
structure Candidate where
  finishReason : Option String
  content : Option CandContent
deriving DecidableEq

/-- A Gemini generateContent response (candidates may be absent). -/
structure GenResponse where
  candidates : Option (List Candidate)
deriving DecidableEq

/-- One part of an outgoing request: inline image data, or the raw
prompt value (the code forwards it without checking it is a string). -/
inductive ReqPart where
  | inline (data : String) (mimeType : String)
  | textPart (v : Option JValue)
deriving DecidableEq

/-- The contents field of an outgoing generateContent request:
generateImage sends the raw prompt value, editImage sends parts. -/
inductive GenContents where
  | ofPrompt (p : Option JValue)
  | ofParts (ps : List ReqPart)
deriving DecidableEq

/-- Observable effects of one tool call: requests issued to the
external service, and files written (path, bytes). -/
structure Effects where
  apiCalls : List GenContents
  writes : List (String × List Nat)
deriving DecidableEq

deriving instance DecidableEq for Except

/-- Outcome of one tool call: MCP result, successor state, effects. -/
structure Outcome where
  result : Except McpError CallToolResult
  state : ServerState
  effects : Effects
deriving DecidableEq

/-- The environment: filesystem (readable files as byte lists), the
external API as an oracle, the images directory, the per-call supply of
timestamp-plus-random file-name stems, whether GEMINI_BASE_URL is set
in the process environment, and the mtime display for fs.stat. -/
structure Env where
  fs : String → Option (List Nat)
  api : GenContents → Except String GenResponse
  imagesDir : String
  fileStamp : Nat → String
  envBaseUrlSet : Bool
  mtimeStr : String → String

/-- JavaScript truthiness of a JValue (empty string, 0, false, null are
falsy; undefined is handled at Option level by callers). -/
def jTruthy : JValue → Bool
  | .str s => s ≠ ""
  | .num n => n ≠ 0
  | .bool b => b
  | .null => false
  | .arr _ => true

mutual

/-- JavaScript template-literal stringification of a value. -/
def jsShow1 : JValue → String
  | .str s => s
  | .num n => toString n
  | .bool b => cond b "true" "false"
  | .null => "null"
  | .arr xs => String.intercalate "," (jsShowList xs)

/-- Stringification of each element of a list of values. -/
def jsShowList : List JValue → List String
  | [] => []
  | v :: vs => jsShow1 v :: jsShowList vs

end

/-- Template-literal stringification including the undefined case. -/
def jsShow : Option JValue → String
  | none => "undefined"
  | some v => jsShow1 v

/-- Whether a list starts with the given pattern. -/
def listHasPre : List Char → List Char → Bool
  | [], _ => true
  | _ :: _, [] => false
  | a :: ps, b :: ls => a = b && listHasPre ps ls

/-- Whether a list contains the given pattern as a contiguous run. -/
def listHasSub (needle : List Char) : List Char → Bool
  | [] => listHasPre needle []
  | b :: ls => listHasPre needle (b :: ls) || listHasSub needle ls

/-- Whether the string hay contains the string needle. -/
def strHasSub (hay needle : String) : Bool :=
  listHasSub needle.data hay.data

/-- The base64 alphabet in order. -/
def b64Chars : List Char :=
  "ABCDEFGHIJKLMNOPQRSTUVWXYZabcdefghijklmnopqrstuvwxyz0123456789+/".data

/-- Character for a 6-bit group. -/
def b64CharOf (n : Nat) : Char := b64Chars.getD n 'A'

/-- Standard base64 encoding of a byte list, chunked in threes
(model of Buffer.toString applied with base64). -/
def b64EncodeChunks : List Nat → List Char
  | [] => []
  | [a] => [b64CharOf (a / 4 % 64), b64CharOf (a % 4 * 16), '=', '=']
  | [a, b] =>
      [b64CharOf (a / 4 % 64), b64CharOf (a % 4 * 16 + b / 16 % 16),
       b64CharOf (b % 16 * 4), '=']
  | a :: b :: c :: rest =>
      b64CharOf (a / 4 % 64) :: b64CharOf (a % 4 * 16 + b / 16 % 16) ::
      b64CharOf (b % 16 * 4 + c / 64 % 4) :: b64CharOf (c % 64) ::
      b64EncodeChunks rest

/-- Base64 encoding as a string. -/
def b64Encode (bs : List Nat) : String := String.mk (b64EncodeChunks bs)

/-- 6-bit value of a base64 character, if it is in the alphabet. -/
def b64Val (c : Char) : Option Nat := b64Chars.findIdx? (fun x => x = c)

/-- Decode 4-character groups back to bytes, dropping an incomplete
tail the way Buffer.from with base64 does. -/
def b64DecodeQuads : List Nat → List Nat
  | a :: b :: c :: d :: rest =>
      (a * 4 + b / 16) :: (b % 16 * 16 + c / 4) :: (c % 4 * 64 + d) ::
      b64DecodeQuads rest
  | [a, b, c] => [a * 4 + b / 16, b % 16 * 16 + c / 4]
  | [a, b] => [a * 4 + b / 16]
  | _ => []

/-- Base64 decoding (model of Buffer.from with base64: characters
outside the alphabet, padding included, are ignored). -/
def b64Decode (s : String) : List Nat :=
  b64DecodeQuads (s.data.filterMap b64Val)

/-- Index of the last occurrence of a character in a list. -/
def lastIdxOf (c : Char) : List Char → Option Nat
  | [] => none
  | a :: rest =>
      match lastIdxOf c rest with
      | some i => some (i + 1)
      | none => if a = c then some 0 else none

/-- Splitting a character list on a separator character. -/
def splitOnChar (c : Char) : List Char → List (List Char)
  | [] => [[]]
  | a :: rest =>
      let r := splitOnChar c rest
      if a = c then [] :: r
      else
        match r with
        | x :: xs => (a :: x) :: xs
        | [] => [[a]]

/-- The last path component (model of the basename step of
path.extname for posix paths). -/
def basenameOf (p : String) : String :=
  match (splitOnChar '/' p.data).getLast? with
  | some b => String.mk b
  | none => p

/-- Model of path.extname: the suffix of the basename from its last
dot, empty when there is no dot or the only dot starts the name. -/
def extname (p : String) : String :=
  let b := (basenameOf p).data
  match lastIdxOf '.' b with
  | some i => if 0 < i then String.mk (b.drop i) else ""
  | none => ""

/-- Lower-casing of a string (String.toLowerCase in the source). -/
def toLowerStr (s : String) : String := String.mk (s.data.map Char.toLower)

/-- getMimeType from the source: switch on the lower-cased extension
with image/jpeg as the default. -/
def getMimeType (filePath : String) : String :=
  let ext := toLowerStr (extname filePath)
  if ext = ".jpg" then "image/jpeg"
  else if ext = ".jpeg" then "image/jpeg"
  else if ext = ".png" then "image/png"
  else if ext = ".webp" then "image/webp"
  else "image/jpeg"

/-- Modelled from the library behaviour of zod url validation (new URL):
the string must start with a scheme (a letter followed by letters,
digits, plus, minus or dot) and a colon. -/
def validUrl (s : String) : Bool :=
  match s.data with
  | c :: rest =>
      c.isAlpha &&
      (let upToColon := rest.takeWhile (fun x => x ≠ ':')
       rest.any (fun x => x = ':') &&
       upToColon.all (fun x => x.isAlphanum || x = '+' || x = '-' || x = '.'))
  | [] => false

/-- Model of ConfigSchema.parse applied to the configData object built
in configureGeminiToken: apiKey must be a string of length at least
one, and baseUrl, when included, must be a string that is a valid URL.
The error is the first zod issue message. -/
def parseConfig : Option JValue → Option JValue → Except String Config
  | some (.str k), bu =>
      if 1 ≤ k.length then
        match bu with
        | none => .ok { geminiApiKey := k, baseUrl := none }
        | some (.str u) =>
            if validUrl u then .ok { geminiApiKey := k, baseUrl := some u }
            else .error "Base URL must be a valid URL"
        | some _ => .error "Expected string, received other"
      else .error "Gemini API key is required"
  | some _, _ => .error "Expected string, received other"
  | none, _ => .error "Required"

/-- ensureConfigured from the source: both the config record and the
client object must be non-null. -/
def ensureConfigured (s : ServerState) : Bool :=
  s.config.isSome && s.genAI.isSome

/-- Empty effects. -/
def noEffects : Effects := ⟨[], []⟩

/-- The outcome thrown by the three generation tools when
ensureConfigured is false. -/
def notConfiguredOutcome (s : ServerState) : Outcome :=
  ⟨.error ⟨.InvalidRequest,
     "Gemini API token not configured. Use configure_gemini_token first."⟩,
   s, noEffects⟩

/-- An error escaping inside the try block of generateImage or
editImage: either an McpError thrown by the validation code, or a
plain Error (filesystem or SDK) carrying only a message. -/
inductive InnerErr where
  | mcp (e : McpError)
  | io (m : String)

/-- The catch block of generateImage and editImage: every escaping
error is re-wrapped as InternalError with a fixed text and the
message of the original error (for an McpError, the message field of
the Error object already contains the code). -/
def wrapCaught (pre : String) : InnerErr → McpError
  | .mcp e => ⟨.InternalError, pre ++ e.fullMessage⟩
  | .io m => ⟨.InternalError, pre ++ m⟩

/-- The three response-completeness checks shared verbatim by
generateImage and editImage: candidates must be present and nonempty,
the first candidate must carry a finishReason, and the finishReason
must be STOP or MAX_TOKENS. -/
def genValidate (resp : GenResponse) : Except McpError Candidate :=
  match resp.candidates with
  | none => .error ⟨.InternalError, "No candidates in response from Gemini API"⟩
  | some [] => .error ⟨.InternalError, "No candidates in response from Gemini API"⟩
  | some (c :: _) =>
      match c.finishReason with
      | none => .error ⟨.InternalError,
          "Response missing finish reason - generation may have been interrupted"⟩
      | some r =>
          if r = "STOP" ∨ r = "MAX_TOKENS" then .ok c
          else .error ⟨.InternalError, "Generation failed with finish reason: " ++ r⟩

/-- Accumulator of the response-parts loop: image content items,
saved file paths, concatenated text, the pending lastImagePath update,
file writes, and the count of file-name stems consumed. -/
structure PartAcc where
  images : List ContentItem
  savedFiles : List String
  textContent : String
  last : Option String
  writes : List (String × List Nat)
  k : Nat

/-- Initial accumulator. -/
def initAcc : PartAcc := ⟨[], [], "", none, [], 0⟩

/-- Output file path for the k-th saved image of a call: directory,
operation-kind marker, timestamp-random stem, fixed png suffix. -/
def savePath (env : Env) (kind : String) (k : Nat) : String :=
  env.imagesDir ++ "/" ++ kind ++ env.fileStamp k ++ ".png"

/-- part.inlineData.mimeType with the image/png default (the source
uses a truthiness test, so an empty string also takes the default). -/
def mimeOrDefault : Option String → String
  | some m => if m ≠ "" then m else "image/png"
  | none => "image/png"

/-- Text accumulation common to both loops (if part.text is truthy). -/
def accText (acc : PartAcc) (part : RespPart) : PartAcc :=
  match part.text with
  | some t => if t ≠ "" then { acc with textContent := acc.textContent ++ t } else acc
  | none => acc

/-- One iteration of the response loop in generateImage: the image
branch fires when part.inlineData and its data field are truthy. -/
def processGenPart (env : Env) (acc : PartAcc) (part : RespPart) : PartAcc :=
  let acc := accText acc part
  match part.inlineData with
  | some d =>
      match d.data with
      | some dat =>
          if dat ≠ "" then
            let filePath := savePath env "generated-" acc.k
            { acc with
              writes := acc.writes ++ [(filePath, b64Decode dat)],
              savedFiles := acc.savedFiles ++ [filePath],
              last := some filePath,
              images := acc.images ++ [ContentItem.image dat (mimeOrDefault d.mimeType)],
              k := acc.k + 1 }
          else acc
      | none => acc
  | none => acc

/-- One iteration of the response loop in editImage: a file-name stem
is consumed as soon as inlineData is present, and the save and the
response item each additionally require a truthy data field. -/
def processEditPart (env : Env) (acc : PartAcc) (part : RespPart) : PartAcc :=
  let acc := accText acc part
  match part.inlineData with
  | some d =>
      let filePath := savePath env "edited-" acc.k
      let acc := { acc with k := acc.k + 1 }
      match d.data with
      | some dat =>
          if dat ≠ "" then
            { acc with
              writes := acc.writes ++ [(filePath, b64Decode dat)],
              savedFiles := acc.savedFiles ++ [filePath],
              last := some filePath,
              images := acc.images ++ [ContentItem.image dat (mimeOrDefault d.mimeType)] }
          else acc
      | none => acc
  | none => acc

/-- lastImagePath after a call: the path of the last written file when
one was written, the previous value otherwise. -/
def lastOr (pending : Option String) (prev : Option String) : Option String :=
  match pending with
  | some p => some p
  | none => prev

/-- Dash-bulleted, newline-joined list, as built for the summaries. -/
def dashJoin (l : List String) : String :=
  String.intercalate "\n" (l.map (fun f => "- " ++ f))

/-- Status text of generateImage. -/
def genStatusText (pV : Option JValue) (textContent : String)
    (savedFiles : List String) : String :=
  let st := "🎨 Image generated with nano-banana (Gemini 2.5 Flash Image)!\n\nPrompt: \""
            ++ jsShow pV ++ "\""
  let st := if textContent ≠ "" then st ++ "\n\nDescription: " ++ textContent else st
  if savedFiles ≠ [] then
    st ++ "\n\n📁 Image saved to:\n" ++ dashJoin savedFiles
  else
    st ++ "\n\nNote: No image was generated. The model may have returned only text."
       ++ "\n\n💡 Tip: Try running the command again - sometimes the first call needs to warm up the model."

/-- Status text of editImage (called only when the reference-images
value is not a truthy non-array, since that case throws earlier). -/
def editStatusText (ip : String) (pV rV : Option JValue)
    (textContent : String) (savedFiles : List String) : String :=
  let st := "🎨 Image edited with nano-banana!\n\nOriginal: " ++ ip
            ++ "\nEdit prompt: \"" ++ jsShow pV ++ "\""
  let st :=
    match rV with
    | some (.arr xs) =>
        if 0 < xs.length then
          st ++ "\n\nReference images used:\n" ++ dashJoin (jsShowList xs)
        else st
    | _ => st
  let st := if textContent ≠ "" then st ++ "\n\nDescription: " ++ textContent else st
  if savedFiles ≠ [] then
    st ++ "\n\n📁 Edited image saved to:\n" ++ dashJoin savedFiles
       ++ "\n\n💡 View the edited image by:"
       ++ "\n1. Opening the file at the path above"
       ++ "\n2. Clicking on \"Called edit_image\" in Cursor to expand the MCP call details"
       ++ "\n\n🔄 To continue editing, use: continue_editing"
       ++ "\n📋 To check current image info, use: get_last_image_info"
  else
    st ++ "\n\nNote: No edited image was generated."
       ++ "\n\n💡 Tip: Try running the command again - sometimes the first call needs to warm up the model."

/-- Message of the error thrown by fs.readFile on a missing file. -/
def enoentMsg (p : String) : String :=
  "ENOENT: no such file or directory, open " ++ p

/-- Message of the error thrown by fs.readFile on a non-string path. -/
def badPathTypeMsg : String :=
  "The path argument must be of type string or an instance of Buffer or URL."

/-- generateImage from the source. -/
def generateImage (env : Env) (s : ServerState) (args : Args) : Outcome :=
  if ensureConfigured s then
    let pV := List.lookup "prompt" args
    let req := GenContents.ofPrompt pV
    match env.api req with
    | .error m =>
        ⟨.error (wrapCaught "Failed to generate image: " (.io m)), s, ⟨[req], []⟩⟩
    | .ok resp =>
        match genValidate resp with
        | .error e =>
            ⟨.error (wrapCaught "Failed to generate image: " (.mcp e)), s, ⟨[req], []⟩⟩
        | .ok cand =>
            let parts := (cand.content.bind (fun cc => cc.parts)).getD []
            let acc := parts.foldl (processGenPart env) initAcc
            ⟨.ok ⟨ContentItem.text (genStatusText pV acc.textContent acc.savedFiles)
                    :: acc.images⟩,
             { s with lastImagePath := lastOr acc.last s.lastImagePath },
             ⟨[req], acc.writes⟩⟩
  else notConfiguredOutcome s

/-- The for-of iteration domain of the reference-images loop: array
elements for an array, single-character strings for a string, nothing
for any other value (matching the truthy-and-length guard). -/
def refIter : Option JValue → List JValue
  | some (.arr xs) => xs
  | some (.str st) => st.data.map (fun c => JValue.str (String.mk [c]))
  | _ => []

/-- Request parts contributed by the reference images: each readable
string path is loaded and encoded, every failing read is skipped. -/
def refParts (env : Env) (rV : Option JValue) : List ReqPart :=
  (refIter rV).filterMap (fun v =>
    match v with
    | .str p => (env.fs p).map (fun b => ReqPart.inline (b64Encode b) (getMimeType p))
    | _ => none)

/-- The body of editImage after argument destructuring: primary read,
reference loop, request, response validation, save loop, summary.  A
truthy non-array referenceImages value reaches the summary step and
throws there (its map method does not exist), after the writes and the
session update already happened. -/
def editImageCore (env : Env) (s : ServerState) (ipV pV rV : Option JValue) : Outcome :=
  if ensureConfigured s then
    match ipV with
    | some (.str ip) =>
        match env.fs ip with
        | some bytes =>
            let req := GenContents.ofParts
              (ReqPart.inline (b64Encode bytes) (getMimeType ip) ::
                (refParts env rV ++ [ReqPart.textPart pV]))
            (match env.api req with
             | .error m =>
                 ⟨.error (wrapCaught "Failed to edit image: " (.io m)), s, ⟨[req], []⟩⟩
             | .ok resp =>
                 match genValidate resp with
                 | .error e =>
                     ⟨.error (wrapCaught "Failed to edit image: " (.mcp e)), s, ⟨[req], []⟩⟩
                 | .ok cand =>
                     let parts := (cand.content.bind (fun cc => cc.parts)).getD []
                     let acc := parts.foldl (processEditPart env) initAcc
                     let s2 := { s with lastImagePath := lastOr acc.last s.lastImagePath }
                     match rV with
                     | some (.str rs) =>
                         if rs ≠ "" then
                           ⟨.error (wrapCaught "Failed to edit image: "
                              (.io "referenceImages.map is not a function")),
                            s2, ⟨[req], acc.writes⟩⟩
                         else
                           ⟨.ok ⟨ContentItem.text
                                   (editStatusText ip pV rV acc.textContent acc.savedFiles)
                                   :: acc.images⟩,
                            s2, ⟨[req], acc.writes⟩⟩
                     | _ =>
                         ⟨.ok ⟨ContentItem.text
                                 (editStatusText ip pV rV acc.textContent acc.savedFiles)
                                 :: acc.images⟩,
                          s2, ⟨[req], acc.writes⟩⟩)
        | none =>
            ⟨.error (wrapCaught "Failed to edit image: " (.io (enoentMsg ip))), s, noEffects⟩
    | _ =>
        ⟨.error (wrapCaught "Failed to edit image: " (.io badPathTypeMsg)), s, noEffects⟩
  else notConfiguredOutcome s

/-- editImage from the source: destructure the arguments and run. -/
def editImage (env : Env) (s : ServerState) (args : Args) : Outcome :=
  editImageCore env s (List.lookup "imagePath" args)
    (List.lookup "prompt" args) (List.lookup "referenceImages" args)

/-- continueEditing from the source: configured check, session check,
existence check, then delegation to editImage with the session path
substituted as imagePath. -/
def continueEditing (env : Env) (s : ServerState) (args : Args) : Outcome :=
  if ensureConfigured s then
    match s.lastImagePath with
    | none =>
        ⟨.error ⟨.InvalidRequest,
           "No previous image found. Please generate or edit an image first, then use continue_editing for subsequent edits."⟩,
         s, noEffects⟩
    | some p =>
        let pV := List.lookup "prompt" args
        let rV := List.lookup "referenceImages" args
        if (env.fs p).isSome then
          editImageCore env s (some (.str p)) pV rV
        else
          ⟨.error ⟨.InvalidRequest,
             "Last image file not found at: " ++ p ++ ". Please generate a new image first."⟩,
           s, noEffects⟩
  else notConfiguredOutcome s

/-- The baseUrl field of the configData object built in
configureGeminiToken: included only when the argument is truthy. -/
def includedBaseUrl (args : Args) : Option JValue :=
  match List.lookup "baseUrl" args with
  | some v => if jTruthy v then some v else none
  | none => none

/-- configureGeminiToken from the source: destructure, build the
configData object (baseUrl included only when truthy), validate with
the zod schema, then set the config, rebuild the client, set the
provenance, persist, and answer with a summary text. -/
def configureGeminiToken (_env : Env) (s : ServerState) (args : Args) : Outcome :=
  let apiKeyV := List.lookup "apiKey" args
  match parseConfig apiKeyV (includedBaseUrl args) with
  | .error m =>
      ⟨.error ⟨.InvalidParams, "Invalid configuration: " ++ m⟩, s, noEffects⟩
  | .ok cfg =>
      let s2 : ServerState :=
        { s with
          config := some cfg,
          genAI := some ⟨cfg.geminiApiKey, cfg.baseUrl⟩,
          configSource := .config_file,
          configFile := some cfg }
      let responseText :=
        "✅ Gemini API token configured successfully! You can now use nano-banana image generation features."
        ++ (match cfg.baseUrl with
            | some u => "\n🌐 Custom base URL configured: " ++ u
            | none => "")
      ⟨.ok ⟨[ContentItem.text responseText]⟩, s2, noEffects⟩

/-- getConfigurationStatus from the source: a single best-effort text
item, never an error. -/
def getConfigurationStatus (env : Env) (s : ServerState) : Outcome :=
  let isConfigured := s.config.isSome && s.genAI.isSome
  let txt :=
    if isConfigured then
      let st := "✅ Gemini API token is configured and ready to use"
        ++ (match s.config with
            | some c =>
                match c.baseUrl with
                | some u => if u ≠ "" then "\n🌐 Custom base URL: " ++ u else ""
                | none => ""
            | none => "")
      let src :=
        match s.configSource with
        | .environment =>
            "\n📍 Source: Environment variables (GEMINI_API_KEY"
            ++ (if env.envBaseUrlSet then " + GEMINI_BASE_URL" else "")
            ++ ")\n💡 This is the most secure configuration method."
        | .config_file =>
            "\n📍 Source: Local configuration file (.nano-banana-config.json)\n💡 Consider using environment variables for better security."
        | .not_configured => ""
      st ++ src
    else
      "❌ Gemini API token is not configured"
      ++ "\n\n📝 Configuration options (in priority order):"
      ++ "\n1. 🥇 MCP client environment variables (Recommended)"
      ++ "\n   - GEMINI_API_KEY (required)"
      ++ "\n   - GEMINI_BASE_URL (optional, for custom endpoints)"
      ++ "\n2. 🥈 System environment variables: GEMINI_API_KEY and GEMINI_BASE_URL"
      ++ "\n3. 🥉 Use configure_gemini_token tool"
      ++ "\n\n💡 For the most secure setup, add this to your MCP configuration:"
      ++ "\n\"env\": \x7b \n  \"GEMINI_API_KEY\": \"your-api-key-here\",\n  \"GEMINI_BASE_URL\": \"https://custom-endpoint.example.com\" \n\x7d"
  ⟨.ok ⟨[ContentItem.text txt]⟩, s, noEffects⟩

/-- Math.round applied to a byte count divided by 1024. -/
def jsRoundKb (n : Nat) : Nat := (2 * n + 1024) / 2048

/-- getLastImageInfo from the source: a single best-effort text item,
never an error. -/
def getLastImageInfo (env : Env) (s : ServerState) : Outcome :=
  let txt :=
    match s.lastImagePath with
    | none =>
        "📷 No previous image found.\n\nPlease generate or edit an image first, then this command will show information about your last image."
    | some p =>
        match env.fs p with
        | some bytes =>
            "📷 Last Image Information:\n\nPath: " ++ p
            ++ "\nFile Size: " ++ toString (jsRoundKb bytes.length) ++ " KB"
            ++ "\nLast Modified: " ++ env.mtimeStr p
            ++ "\n\n💡 Use continue_editing to make further changes to this image."
        | none =>
            "📷 Last Image Information:\n\nPath: " ++ p
            ++ "\nStatus: ❌ File not found"
            ++ "\n\n💡 The image file may have been moved or deleted. Please generate a new image."
  ⟨.ok ⟨[ContentItem.text txt]⟩, s, noEffects⟩

/-- The CallTool dispatcher: route on the tool name, unknown names
fail with MethodNotFound.  Every handler only throws McpError values,
which the top-level catch rethrows unchanged. -/
def handleCallTool (env : Env) (s : ServerState) (name : String) (args : Args) : Outcome :=
  if name = "configure_gemini_token" then configureGeminiToken env s args
  else if name = "generate_image" then generateImage env s args
  else if name = "edit_image" then editImage env s args
  else if name = "get_configuration_status" then getConfigurationStatus env s
  else if name = "continue_editing" then continueEditing env s args
  else if name = "get_last_image_info" then getLastImageInfo env s
  else ⟨.error ⟨.MethodNotFound, "Unknown tool: " ++ name⟩, s, noEffects⟩

/-- Error code of an outcome, if it failed. -/
def Outcome.errCode (o : Outcome) : Option ErrCode :=
  match o.result with
  | .error e => some e.code
  | .ok _ => none

/-- Error message of an outcome, if it failed. -/
def Outcome.errMsg (o : Outcome) : Option String :=
  match o.result with
  | .error e => some e.message
  | .ok _ => none

/-- Whether an outcome succeeded. -/
def Outcome.isOk (o : Outcome) : Bool :=
  match o.result with
  | .error _ => false
  | .ok _ => true

/-- A small concrete filesystem used by the evaluation witnesses. -/
def exFs : String → Option (List Nat)
  | "/imgs/last.png" => some [1, 2, 3]
  | "/refs/a.png" => some [4, 5]
  | _ => none

/-- A minimal successful response: one candidate that stopped
normally and returned one inline image part (base64 of ABC). -/
def exRespOk : GenResponse :=
  ⟨some [⟨some "STOP", some ⟨some [⟨none, some ⟨some "QUJD", some "image/png"⟩⟩]⟩⟩]⟩

/-- A concrete environment whose oracle always answers exRespOk. -/
def exEnv : Env :=
  ⟨exFs, fun _ => .ok exRespOk, "/out", fun k => "stamp" ++ toString k, false,
   fun _ => "mtime"⟩

/-- A response with one candidate that terminated abnormally. -/
def exRespBad : GenResponse := ⟨some [⟨some "SAFETY", none⟩]⟩

/-- A concrete environment whose oracle always answers exRespBad. -/
def exEnvBad : Env :=
  ⟨exFs, fun _ => .ok exRespBad, "/out", fun k => "stamp" ++ toString k, false,
   fun _ => "mtime"⟩

/-- A configured server state with no session image. -/
def cfgState : ServerState :=
  ⟨some ⟨"key", none⟩, some ⟨"key", none⟩, none, .config_file, some ⟨"key", none⟩⟩

/-- A configured server state whose session points at an existing file. -/
def cfgStateWithLast : ServerState :=
  ⟨some ⟨"key", none⟩, some ⟨"key", none⟩, some "/imgs/last.png", .config_file,
   some ⟨"key", none⟩⟩

/-- A configured server state whose session points at a deleted file. -/
def cfgStateStale : ServerState :=
  ⟨some ⟨"key", none⟩, some ⟨"key", none⟩, some "/imgs/gone.png", .config_file,
   some ⟨"key", none⟩⟩

/-- The unconfigured startup state. -/
def emptyState : ServerState := ⟨none, none, none, .not_configured, none⟩

/-- Error message of an outcome, with the empty string when it
succeeded. -/
def Outcome.errMsgD (o : Outcome) : String :=
  match o.result with
  | .error e => e.message
  | .ok _ => ""

/-- An arguments entry present exactly when the value is present
(object keys holding undefined destructure the same as absent keys). -/
def optEntry (k : String) : Option JValue → Args
  | some v => [(k, v)]
  | none => []

/-- Every item of the list is an image content item. -/
def allImg (l : List ContentItem) : Prop :=
  ∀ c ∈ l, ∃ d m, c = ContentItem.image d m

/-- The result starts with one text item followed by image items only. -/
def textLed (r : CallToolResult) : Prop :=
  ∃ t rest, r.content = ContentItem.text t :: rest ∧ allImg rest

/-- The apiKey argument is missing or is not a string. -/
def apiKeyBad (args : Args) : Prop :=
  ∀ k, List.lookup "apiKey" args ≠ some (JValue.str k)

/-! Helper lemmas. -/

theorem listHasPre_append (l t : List Char) : listHasPre l (l ++ t) = true := by
  induction l with
  | nil => rfl
  | cons a as ih => simp [listHasPre, ih]

theorem listHasSub_self_append (n t : List Char) : listHasSub n (n ++ t) = true := by
  cases n with
  | nil => cases t <;> simp [listHasSub, listHasPre]
  | cons a as =>
      unfold listHasSub
      simp only [List.cons_append, Bool.or_eq_true]
      left
      simpa [listHasPre] using listHasPre_append as t

theorem listHasSub_cons (n : List Char) (a : Char) (l : List Char)
    (h : listHasSub n l = true) : listHasSub n (a :: l) = true := by
  simp [listHasSub, h]

theorem listHasSub_append_left (n h l : List Char)
    (hs : listHasSub n l = true) : listHasSub n (h ++ l) = true := by
  induction h with
  | nil => simpa using hs
  | cons a as ih => simpa using listHasSub_cons n a (as ++ l) ih

/-- A string contains any suffix piece of a concatenation. -/
theorem strHasSub_append_right (x y n : String)
    (h : strHasSub y n = true) : strHasSub (x ++ y) n = true := by
  unfold strHasSub at h ⊢
  rw [String.data_append]
  exact listHasSub_append_left _ _ _ h

/-- A string contains itself. -/
theorem strHasSub_refl (n : String) : strHasSub n n = true := by
  unfold strHasSub
  have := listHasSub_self_append n.data []
  simpa using this

/-- A concatenation ending in the needle contains the needle. -/
theorem strHasSub_concat_self (x n : String) : strHasSub (x ++ n) n = true :=
  strHasSub_append_right x n n (strHasSub_refl n)

/-- generateImage never answers with the InvalidParams code. -/
theorem generateImage_no_invalidParams (env : Env) (s : ServerState) (args : Args) :
    (generateImage env s args).errCode ≠ some ErrCode.InvalidParams := by
  simp only [generateImage]
  repeat' split
  all_goals simp [wrapCaught, notConfiguredOutcome, Outcome.errCode]

/-- editImageCore never answers with the InvalidParams code. -/
theorem editImageCore_no_invalidParams (env : Env) (s : ServerState)
    (ipV pV rV : Option JValue) :
    (editImageCore env s ipV pV rV).errCode ≠ some ErrCode.InvalidParams := by
  simp only [editImageCore]
  repeat' split
  all_goals simp [wrapCaught, notConfiguredOutcome, Outcome.errCode]

/-- continueEditing never answers with the InvalidParams code. -/
theorem continueEditing_no_invalidParams (env : Env) (s : ServerState) (args : Args) :
    (continueEditing env s args).errCode ≠ some ErrCode.InvalidParams := by
  simp only [continueEditing]
  repeat' split
  all_goals
    first
    | exact editImageCore_no_invalidParams _ _ _ _ _
    | simp [notConfiguredOutcome, Outcome.errCode]

/-- A missing or non-string apiKey argument makes the zod parse fail. -/
theorem parseConfig_bad_apiKey (args : Args) (h : apiKeyBad args) :
    ∃ m, parseConfig (List.lookup "apiKey" args) (includedBaseUrl args) = .error m := by
  cases hk : List.lookup "apiKey" args with
  | none => exact ⟨_, rfl⟩
  | some v =>
      cases v with
      | str k => exact absurd hk (h k)
      | num n => exact ⟨_, rfl⟩
      | bool b => exact ⟨_, rfl⟩
      | null => exact ⟨_, rfl⟩
      | arr xs => exact ⟨_, rfl⟩

/-! Claim theorems. -/

/-- Claim C6: mime-type inference maps the extensions .jpg and .jpeg to
image/jpeg, .png to image/png, .webp to image/webp, and any other
extension (including none) to the image/jpeg fallback.  Confirmed. -/
theorem claim_C6 (p : String) :
    (toLowerStr (extname p) = ".jpg" → getMimeType p = "image/jpeg")
  ∧ (toLowerStr (extname p) = ".jpeg" → getMimeType p = "image/jpeg")
  ∧ (toLowerStr (extname p) = ".png" → getMimeType p = "image/png")
  ∧ (toLowerStr (extname p) = ".webp" → getMimeType p = "image/webp")
  ∧ (toLowerStr (extname p) ≠ ".jpg" → toLowerStr (extname p) ≠ ".jpeg" →
     toLowerStr (extname p) ≠ ".png" → toLowerStr (extname p) ≠ ".webp" →
     getMimeType p = "image/jpeg") := by
  refine ⟨fun h => ?_, fun h => ?_, fun h => ?_, fun h => ?_, fun h1 h2 h3 h4 => ?_⟩ <;>
    simp [getMimeType, *]

/-- Evaluation witness for claim C6 at concrete paths. -/
theorem claim_C6_witness :
    getMimeType "dir/photo.PNG" = "image/png" ∧ getMimeType "doc.txt" = "image/jpeg" :=
  ⟨(claim_C6 "dir/photo.PNG").2.2.1 (by decide),
   (claim_C6 "doc.txt").2.2.2.2 (by decide) (by decide) (by decide) (by decide)⟩

/-- Claim C9: configuring twice with the same valid payload ends in
the same outcome (result, in-memory credential, provenance, persisted
file) as configuring once.  Confirmed. -/
theorem claim_C9 (env : Env) (s : ServerState) (args : Args) (cfg : Config)
    (h : parseConfig (List.lookup "apiKey" args) (includedBaseUrl args) = .ok cfg) :
    configureGeminiToken env ((configureGeminiToken env s args).state) args
      = configureGeminiToken env s args := by
  simp [configureGeminiToken, h]

/-- Evaluation witness for claim C9 at a concrete payload. -/
theorem claim_C9_witness :
    configureGeminiToken exEnv
        ((configureGeminiToken exEnv emptyState [("apiKey", JValue.str "k")]).state)
        [("apiKey", JValue.str "k")]
      = configureGeminiToken exEnv emptyState [("apiKey", JValue.str "k")] :=
  claim_C9 exEnv emptyState [("apiKey", JValue.str "k")] ⟨"k", none⟩ (by decide)

/-- Claim C10: when configuration fails schema validation the call
answers InvalidParams and leaves the whole server state (credential,
client, provenance, persisted file) and the effects untouched.
Confirmed. -/
theorem claim_C10 (env : Env) (s : ServerState) (args : Args) (m : String)
    (h : parseConfig (List.lookup "apiKey" args) (includedBaseUrl args) = .error m) :
    configureGeminiToken env s args =
      ⟨.error ⟨.InvalidParams, "Invalid configuration: " ++ m⟩, s, noEffects⟩ := by
  simp [configureGeminiToken, h]

/-- Evaluation witness for claim C10 at the empty apiKey. -/
theorem claim_C10_witness :
    configureGeminiToken exEnv cfgState [("apiKey", JValue.str "")] =
      ⟨.error ⟨.InvalidParams,
         "Invalid configuration: " ++ "Gemini API key is required"⟩,
       cfgState, noEffects⟩ :=
  claim_C10 exEnv cfgState [("apiKey", JValue.str "")]
    "Gemini API key is required" (by decide)

/-- Claim C4: each generation tool invoked while unconfigured fails
with InvalidRequest carrying the not-configured message, without any
request to the external service (and without touching the state).
Confirmed. -/
theorem claim_C4 (env : Env) (s : ServerState) (args : Args)
    (h : ensureConfigured s = false) :
    generateImage env s args = notConfiguredOutcome s
  ∧ editImage env s args = notConfiguredOutcome s
  ∧ continueEditing env s args = notConfiguredOutcome s := by
  refine ⟨?_, ?_, ?_⟩ <;> simp [generateImage, editImage, editImageCore, continueEditing, h]

/-- Evaluation witness for claim C4 at the startup state. -/
theorem claim_C4_witness :
    generateImage exEnv emptyState [("prompt", JValue.str "x")]
      = notConfiguredOutcome emptyState
  ∧ editImage exEnv emptyState [("prompt", JValue.str "x")]
      = notConfiguredOutcome emptyState
  ∧ continueEditing exEnv emptyState [("prompt", JValue.str "x")]
      = notConfiguredOutcome emptyState :=
  claim_C4 exEnv emptyState [("prompt", JValue.str "x")] (by decide)

/-- Claim C3: with a configured credential, continue editing with an
empty session always fails with InvalidRequest, and with a session
path that no longer exists it fails with InvalidRequest naming that
path; in both cases no request is issued and nothing is written.
Confirmed. -/
theorem claim_C3 (env : Env) (s : ServerState) (args : Args)
    (hc : ensureConfigured s = true) :
    (s.lastImagePath = none →
       continueEditing env s args =
         ⟨.error ⟨.InvalidRequest,
            "No previous image found. Please generate or edit an image first, then use continue_editing for subsequent edits."⟩,
          s, noEffects⟩)
  ∧ (∀ p, s.lastImagePath = some p → env.fs p = none →
       continueEditing env s args =
         ⟨.error ⟨.InvalidRequest,
            "Last image file not found at: " ++ p ++ ". Please generate a new image first."⟩,
          s, noEffects⟩
       ∧ strHasSub ("Last image file not found at: "
            ++ p ++ ". Please generate a new image first.") p = true) := by
  constructor
  · intro h
    simp [continueEditing, hc, h]
  · intro p hp hfs
    constructor
    · simp [continueEditing, hc, hp, hfs]
    · have h1 : strHasSub (p ++ ". Please generate a new image first.") p = true := by
        unfold strHasSub
        rw [String.data_append]
        exact listHasSub_self_append _ _
      have h2 := strHasSub_append_right "Last image file not found at: "
        (p ++ ". Please generate a new image first.") p h1
      have h3 : "Last image file not found at: "
          ++ (p ++ ". Please generate a new image first.")
          = "Last image file not found at: " ++ p ++ ". Please generate a new image first." := by
        rw [String.append_assoc]
      rw [h3] at h2
      exact h2

/-- Evaluation witness for claim C3 at the two concrete states. -/
theorem claim_C3_witness :
    continueEditing exEnv cfgState [("prompt", JValue.str "x")] =
      ⟨.error ⟨.InvalidRequest,
         "No previous image found. Please generate or edit an image first, then use continue_editing for subsequent edits."⟩,
       cfgState, noEffects⟩
  ∧ continueEditing exEnv cfgStateStale [("prompt", JValue.str "x")] =
      ⟨.error ⟨.InvalidRequest,
         "Last image file not found at: " ++ "/imgs/gone.png" ++ ". Please generate a new image first."⟩,
       cfgStateStale, noEffects⟩ :=
  ⟨(claim_C3 exEnv cfgState [("prompt", JValue.str "x")] (by decide)).1 (by decide),
   ((claim_C3 exEnv cfgStateStale [("prompt", JValue.str "x")] (by decide)).2
      "/imgs/gone.png" (by decide) (by decide)).1⟩

/-- Claim C2: with a session path whose file exists, continue editing
is exactly edit image invoked with that path supplied explicitly as
imagePath together with the same prompt and reference-image arguments:
the full outcome (content items in order, saved files, resulting
session state, requests issued) coincides.  Confirmed. -/
theorem claim_C2 (env : Env) (s : ServerState) (p : String) (b : List Nat)
    (hp : s.lastImagePath = some p) (hb : env.fs p = some b) (args : Args) :
    continueEditing env s args =
      editImage env s ([("imagePath", JValue.str p)]
        ++ optEntry "prompt" (List.lookup "prompt" args)
        ++ optEntry "referenceImages" (List.lookup "referenceImages" args)) := by
  by_cases hc : ensureConfigured s = true
  · cases hpv : List.lookup "prompt" args <;>
    cases hrv : List.lookup "referenceImages" args <;>
      simp [continueEditing, editImage, hc, hp, hb, hpv, hrv, optEntry, List.lookup]
  · rw [Bool.not_eq_true] at hc
    simp [continueEditing, editImage, editImageCore, hc]

/-- Evaluation witness for claim C2 at a concrete session. -/
theorem claim_C2_witness :
    continueEditing exEnv cfgStateWithLast [("prompt", JValue.str "x")] =
      editImage exEnv cfgStateWithLast
        ([("imagePath", JValue.str "/imgs/last.png")]
          ++ optEntry "prompt" (List.lookup "prompt" [("prompt", JValue.str "x")])
          ++ optEntry "referenceImages"
               (List.lookup "referenceImages" [("prompt", JValue.str "x")])) :=
  claim_C2 exEnv cfgStateWithLast "/imgs/last.png" [1, 2, 3] (by decide)
    (by decide) [("prompt", JValue.str "x")]

/-- Claim C1 is refuted: invoking generate_image with the required
prompt argument missing, on a configured state, does not fail with
InvalidParams — the dispatcher performs no argument validation for the
generation tools, the external service is contacted (one request, with
the absent prompt forwarded), and the call even succeeds. -/
theorem claim_C1_counterexample :
    (handleCallTool exEnv cfgState "generate_image" []).errCode ≠ some ErrCode.InvalidParams
  ∧ (handleCallTool exEnv cfgState "generate_image" []).isOk = true
  ∧ (handleCallTool exEnv cfgState "generate_image" []).effects.apiCalls
      = [GenContents.ofPrompt none] :=
  ⟨by decide, by rfl, by rfl⟩

/-- Claim C1 amended: only configure_credential validates its
arguments — a missing or mistyped apiKey fails with InvalidParams
before any effect (state unchanged, nothing contacted); the three
generation tools perform no argument validation and never answer with
the InvalidParams category at all. -/
theorem claim_C1_amended (env : Env) (s : ServerState) (args : Args) :
    (apiKeyBad args →
       (configureGeminiToken env s args).errCode = some ErrCode.InvalidParams
     ∧ (configureGeminiToken env s args).state = s
     ∧ (configureGeminiToken env s args).effects = noEffects)
  ∧ (generateImage env s args).errCode ≠ some ErrCode.InvalidParams
  ∧ (editImage env s args).errCode ≠ some ErrCode.InvalidParams
  ∧ (continueEditing env s args).errCode ≠ some ErrCode.InvalidParams := by
  refine ⟨fun hbad => ?_, generateImage_no_invalidParams env s args,
    editImageCore_no_invalidParams env s _ _ _,
    continueEditing_no_invalidParams env s args⟩
  obtain ⟨m, hm⟩ := parseConfig_bad_apiKey args hbad
  simp [configureGeminiToken, hm, Outcome.errCode]

/-- Evaluation witness for claim C1 amended at a mistyped apiKey. -/
theorem claim_C1_amended_witness :
    (configureGeminiToken exEnv cfgState [("apiKey", JValue.num 1)]).errCode
        = some ErrCode.InvalidParams
  ∧ (generateImage exEnv cfgState [("apiKey", JValue.num 1)]).errCode
        ≠ some ErrCode.InvalidParams :=
  ⟨((claim_C1_amended exEnv cfgState [("apiKey", JValue.num 1)]).1
      (fun k h => by simp [List.lookup] at h)).1,
   (claim_C1_amended exEnv cfgState [("apiKey", JValue.num 1)]).2.1⟩

/-- A needle contained in the message of an McpError is contained in
the Error message text the SDK constructor builds from it. -/
theorem strHasSub_fullMessage (e : McpError) (n : String)
    (h : strHasSub e.message n = true) : strHasSub e.fullMessage n = true := by
  unfold McpError.fullMessage
  exact strHasSub_append_right _ _ _ h

/-- The needle also survives the catch-block re-wrap. -/
theorem strHasSub_wrap (pre : String) (e : McpError) (n : String)
    (h : strHasSub e.message n = true) :
    strHasSub (pre ++ e.fullMessage) n = true :=
  strHasSub_append_right _ _ _ (strHasSub_fullMessage e n h)

/-- genValidate on a response without candidates. -/
theorem genValidate_noCand (resp : GenResponse)
    (h : resp.candidates = none ∨ resp.candidates = some []) :
    genValidate resp =
      .error ⟨.InternalError, "No candidates in response from Gemini API"⟩ := by
  rcases h with h | h <;> simp [genValidate, h]

/-- genValidate on a first candidate without a finishReason. -/
theorem genValidate_noFinish (resp : GenResponse) (c : Candidate) (cs : List Candidate)
    (h : resp.candidates = some (c :: cs)) (hf : c.finishReason = none) :
    genValidate resp =
      .error ⟨.InternalError,
        "Response missing finish reason - generation may have been interrupted"⟩ := by
  simp [genValidate, h, hf]

/-- genValidate on a finishReason outside the accepted set. -/
theorem genValidate_badFinish (resp : GenResponse) (c : Candidate) (cs : List Candidate)
    (r : String) (h : resp.candidates = some (c :: cs)) (hf : c.finishReason = some r)
    (h1 : r ≠ "STOP") (h2 : r ≠ "MAX_TOKENS") :
    genValidate resp =
      .error ⟨.InternalError, "Generation failed with finish reason: " ++ r⟩ := by
  simp [genValidate, h, hf, h1, h2]

/-- generateImage under a failing response validation. -/
theorem generateImage_vErr (env : Env) (s : ServerState) (args : Args)
    (resp : GenResponse) (e : McpError)
    (hc : ensureConfigured s = true)
    (hapi : ∀ q, env.api q = .ok resp)
    (hv : genValidate resp = .error e) :
    (generateImage env s args).errCode = some ErrCode.InternalError
  ∧ (generateImage env s args).errMsgD = "Failed to generate image: " ++ e.fullMessage := by
  constructor <;>
    simp [generateImage, hc, hapi, hv, wrapCaught, Outcome.errCode, Outcome.errMsgD]

/-- editImage under a failing response validation. -/
theorem editImage_vErr (env : Env) (s : ServerState) (args : Args)
    (ip : String) (b : List Nat) (resp : GenResponse) (e : McpError)
    (hc : ensureConfigured s = true)
    (hip : List.lookup "imagePath" args = some (JValue.str ip))
    (hb : env.fs ip = some b)
    (hapi : ∀ q, env.api q = .ok resp)
    (hv : genValidate resp = .error e) :
    (editImage env s args).errCode = some ErrCode.InternalError
  ∧ (editImage env s args).errMsgD = "Failed to edit image: " ++ e.fullMessage := by
  constructor <;>
    simp [editImage, editImageCore, hc, hip, hb, hapi, hv, wrapCaught,
      Outcome.errCode, Outcome.errMsgD]

/-- Claim C5: for any upstream response received by generate_image or
edit_image, absence of candidates fails with InternalError; a first
candidate without a completion-status field fails with InternalError
whose message says generation may have been interrupted; any status
other than STOP or MAX_TOKENS fails with InternalError whose message
includes the actual status value.  Confirmed (the handlers re-wrap
their own validation errors, which keeps the category and embeds the
original message). -/
theorem claim_C5 (env : Env) (s : ServerState) (args : Args) (resp : GenResponse)
    (ip : String) (b : List Nat)
    (hc : ensureConfigured s = true)
    (hapi : ∀ q, env.api q = .ok resp)
    (hip : List.lookup "imagePath" args = some (JValue.str ip))
    (hb : env.fs ip = some b) :
    ((resp.candidates = none ∨ resp.candidates = some []) →
       (generateImage env s args).errCode = some ErrCode.InternalError
     ∧ (editImage env s args).errCode = some ErrCode.InternalError)
  ∧ (∀ c cs, resp.candidates = some (c :: cs) → c.finishReason = none →
       (generateImage env s args).errCode = some ErrCode.InternalError
     ∧ strHasSub (generateImage env s args).errMsgD
         "generation may have been interrupted" = true
     ∧ (editImage env s args).errCode = some ErrCode.InternalError
     ∧ strHasSub (editImage env s args).errMsgD
         "generation may have been interrupted" = true)
  ∧ (∀ c cs r, resp.candidates = some (c :: cs) → c.finishReason = some r →
       r ≠ "STOP" → r ≠ "MAX_TOKENS" →
       (generateImage env s args).errCode = some ErrCode.InternalError
     ∧ strHasSub (generateImage env s args).errMsgD r = true
     ∧ (editImage env s args).errCode = some ErrCode.InternalError
     ∧ strHasSub (editImage env s args).errMsgD r = true) := by
  refine ⟨fun h => ?_, fun c cs h hf => ?_, fun c cs r h hf h1 h2 => ?_⟩
  · have hv := genValidate_noCand resp h
    exact ⟨(generateImage_vErr env s args resp _ hc hapi hv).1,
           (editImage_vErr env s args ip b resp _ hc hip hb hapi hv).1⟩
  · have hv := genValidate_noFinish resp c cs h hf
    have hg := generateImage_vErr env s args resp _ hc hapi hv
    have he := editImage_vErr env s args ip b resp _ hc hip hb hapi hv
    have hsub : strHasSub
        (McpError.message ⟨.InternalError,
          "Response missing finish reason - generation may have been interrupted"⟩)
        "generation may have been interrupted" = true := by decide
    refine ⟨hg.1, ?_, he.1, ?_⟩
    · rw [hg.2]; exact strHasSub_wrap _ _ _ hsub
    · rw [he.2]; exact strHasSub_wrap _ _ _ hsub
  · have hv := genValidate_badFinish resp c cs r h hf h1 h2
    have hg := generateImage_vErr env s args resp _ hc hapi hv
    have he := editImage_vErr env s args ip b resp _ hc hip hb hapi hv
    have hsub : strHasSub
        (McpError.message ⟨.InternalError,
          "Generation failed with finish reason: " ++ r⟩) r = true := by
      exact strHasSub_concat_self _ r
    refine ⟨hg.1, ?_, he.1, ?_⟩
    · rw [hg.2]; exact strHasSub_wrap _ _ _ hsub
    · rw [he.2]; exact strHasSub_wrap _ _ _ hsub

/-- Evaluation witness for claim C5 at a concrete abnormal status. -/
theorem claim_C5_witness :
    (generateImage exEnvBad cfgState
        [("imagePath", JValue.str "/imgs/last.png"), ("prompt", JValue.str "x")]).errCode
      = some ErrCode.InternalError
  ∧ strHasSub (generateImage exEnvBad cfgState
        [("imagePath", JValue.str "/imgs/last.png"), ("prompt", JValue.str "x")]).errMsgD
      "SAFETY" = true :=
  have h := (claim_C5 exEnvBad cfgState
      [("imagePath", JValue.str "/imgs/last.png"), ("prompt", JValue.str "x")]
      exRespBad "/imgs/last.png" [1, 2, 3] (by decide) (fun _ => rfl) (by rfl)
      (by rfl)).2.2 ⟨some "SAFETY", none⟩ [] "SAFETY" rfl rfl (by decide) (by decide)
  ⟨h.1, h.2.1⟩

/-- Claim C7: with a readable primary image, every reference path that
fails to load is skipped without aborting: the request carries the
primary image first, then exactly the reference images that did load in
their original order, then the prompt, and the call succeeds when the
response passes validation.  Confirmed. -/
theorem claim_C7 (env : Env) (s : ServerState) (args : Args) (ip : String)
    (b : List Nat) (pV : Option JValue) (refs : List JValue)
    (cand : Candidate) (resp : GenResponse)
    (hc : ensureConfigured s = true)
    (hip : List.lookup "imagePath" args = some (JValue.str ip))
    (hpv : List.lookup "prompt" args = pV)
    (hrv : List.lookup "referenceImages" args = some (JValue.arr refs))
    (hb : env.fs ip = some b)
    (hapi : ∀ q, env.api q = .ok resp)
    (hv : genValidate resp = .ok cand) :
    (editImage env s args).effects.apiCalls
      = [GenContents.ofParts
          (ReqPart.inline (b64Encode b) (getMimeType ip) ::
            (refs.filterMap (fun v =>
               match v with
               | JValue.str rp =>
                   (env.fs rp).map
                     (fun rb => ReqPart.inline (b64Encode rb) (getMimeType rp))
               | _ => none)
             ++ [ReqPart.textPart pV]))]
  ∧ (editImage env s args).isOk = true := by
  constructor <;>
    simp [editImage, editImageCore, hc, hip, hpv, hrv, hb, hapi, hv,
      refParts, refIter, Outcome.isOk]

/-- Evaluation witness for claim C7: one unreadable reference among
two is skipped, the other is included, and the call succeeds. -/
theorem claim_C7_witness :
    (editImage exEnv cfgState
        [("imagePath", JValue.str "/imgs/last.png"), ("prompt", JValue.str "p"),
         ("referenceImages",
           JValue.arr [JValue.str "/refs/missing.png", JValue.str "/refs/a.png"])]).effects.apiCalls
      = [GenContents.ofParts
          [ReqPart.inline "AQID" "image/png", ReqPart.inline "BAU=" "image/png",
           ReqPart.textPart (some (JValue.str "p"))]]
  ∧ (editImage exEnv cfgState
        [("imagePath", JValue.str "/imgs/last.png"), ("prompt", JValue.str "p"),
         ("referenceImages",
           JValue.arr [JValue.str "/refs/missing.png", JValue.str "/refs/a.png"])]).isOk
      = true :=
  have h := claim_C7 exEnv cfgState
    [("imagePath", JValue.str "/imgs/last.png"), ("prompt", JValue.str "p"),
     ("referenceImages",
       JValue.arr [JValue.str "/refs/missing.png", JValue.str "/refs/a.png"])]
    "/imgs/last.png" [1, 2, 3] (some (JValue.str "p"))
    [JValue.str "/refs/missing.png", JValue.str "/refs/a.png"]
    ⟨some "STOP", some ⟨some [⟨none, some ⟨some "QUJD", some "image/png"⟩⟩]⟩⟩
    exRespOk (by decide) (by rfl) (by rfl) (by rfl) (by rfl) (fun _ => rfl) (by rfl)
  ⟨h.1, h.2⟩

theorem allImg_nil : allImg [] := fun c hc => absurd hc (List.not_mem_nil c)

theorem allImg_push (l : List ContentItem) (d m : String)
    (h : allImg l) : allImg (l ++ [ContentItem.image d m]) := by
  intro c hc
  rcases List.mem_append.1 hc with h1 | h1
  · exact h c h1
  · exact ⟨d, m, List.mem_singleton.1 h1⟩

theorem accText_images (acc : PartAcc) (part : RespPart) :
    (accText acc part).images = acc.images := by
  unfold accText
  split
  · split <;> rfl
  · rfl

theorem processGenPart_allImg (env : Env) (acc : PartAcc) (part : RespPart)
    (h : allImg acc.images) : allImg (processGenPart env acc part).images := by
  have hax := accText_images acc part
  unfold processGenPart
  repeat' split
  all_goals simp only [hax]
  all_goals first
    | exact h
    | exact allImg_push _ _ _ h

theorem processEditPart_allImg (env : Env) (acc : PartAcc) (part : RespPart)
    (h : allImg acc.images) : allImg (processEditPart env acc part).images := by
  have hax := accText_images acc part
  unfold processEditPart
  repeat' split
  all_goals simp only [hax]
  all_goals first
    | exact h
    | exact allImg_push _ _ _ h

theorem foldlGen_allImg (env : Env) (parts : List RespPart) :
    ∀ acc : PartAcc, allImg acc.images →
      allImg ((parts.foldl (processGenPart env) acc).images) := by
  induction parts with
  | nil => intro acc h; simpa using h
  | cons p ps ih =>
      intro acc h
      simp only [List.foldl_cons]
      exact ih _ (processGenPart_allImg env acc p h)

theorem foldlEdit_allImg (env : Env) (parts : List RespPart) :
    ∀ acc : PartAcc, allImg acc.images →
      allImg ((parts.foldl (processEditPart env) acc).images) := by
  induction parts with
  | nil => intro acc h; simpa using h
  | cons p ps ih =>
      intro acc h
      simp only [List.foldl_cons]
      exact ih _ (processEditPart_allImg env acc p h)

theorem configure_ok_textLed (env : Env) (s : ServerState) (args : Args)
    (r : CallToolResult)
    (h : (configureGeminiToken env s args).result = .ok r) : textLed r := by
  simp only [configureGeminiToken] at h
  split at h
  · simp at h
  · simp only [Except.ok.injEq] at h
    exact ⟨_, [], by rw [← h], allImg_nil⟩

theorem generateImage_ok_textLed (env : Env) (s : ServerState) (args : Args)
    (r : CallToolResult)
    (h : (generateImage env s args).result = .ok r) : textLed r := by
  simp only [generateImage] at h
  split at h
  · split at h
    · simp at h
    · split at h
      · simp at h
      · simp only [Except.ok.injEq] at h
        exact ⟨_, _, by rw [← h], foldlGen_allImg env _ initAcc allImg_nil⟩
  · simp [notConfiguredOutcome] at h

theorem editImageCore_ok_textLed (env : Env) (s : ServerState)
    (ipV pV rV : Option JValue) (r : CallToolResult)
    (h : (editImageCore env s ipV pV rV).result = .ok r) : textLed r := by
  simp only [editImageCore] at h
  split at h
  · split at h
    · split at h
      · split at h
        · simp at h
        · split at h
          · simp at h
          · split at h
            · split at h
              · simp at h
              · simp only [Except.ok.injEq] at h
                exact ⟨_, _, by rw [← h], foldlEdit_allImg env _ initAcc allImg_nil⟩
            · simp only [Except.ok.injEq] at h
              exact ⟨_, _, by rw [← h], foldlEdit_allImg env _ initAcc allImg_nil⟩
      · simp at h
    · simp at h
  · simp [notConfiguredOutcome] at h

theorem continueEditing_ok_textLed (env : Env) (s : ServerState) (args : Args)
    (r : CallToolResult)
    (h : (continueEditing env s args).result = .ok r) : textLed r := by
  simp only [continueEditing] at h
  split at h
  · split at h
    · simp at h
    · split at h
      · exact editImageCore_ok_textLed env s _ _ _ r h
      · simp at h
  · simp [notConfiguredOutcome] at h

theorem status_ok_textLed (env : Env) (s : ServerState) (r : CallToolResult)
    (h : (getConfigurationStatus env s).result = .ok r) : textLed r := by
  simp only [getConfigurationStatus, Except.ok.injEq] at h
  exact ⟨_, [], by rw [← h], allImg_nil⟩

theorem lastInfo_ok_textLed (env : Env) (s : ServerState) (r : CallToolResult)
    (h : (getLastImageInfo env s).result = .ok r) : textLed r := by
  simp only [getLastImageInfo, Except.ok.injEq] at h
  exact ⟨_, [], by rw [← h], allImg_nil⟩

/-- Claim C8: every successful tool result starts with a single
status/summary text item, and everything after it is an image item, so
the text item precedes all image items.  Confirmed. -/
theorem claim_C8 (env : Env) (s : ServerState) (name : String) (args : Args)
    (r : CallToolResult)
    (h : (handleCallTool env s name args).result = .ok r) : textLed r := by
  simp only [handleCallTool] at h
  split at h
  · exact configure_ok_textLed env s args r h
  · split at h
    · exact generateImage_ok_textLed env s args r h
    · split at h
      · exact editImageCore_ok_textLed env s _ _ _ r h
      · split at h
        · exact status_ok_textLed env s r h
        · split at h
          · exact continueEditing_ok_textLed env s args r h
          · split at h
            · exact lastInfo_ok_textLed env s r h
            · simp at h

/-- Evaluation witness for claim C8 at a concrete successful call. -/
theorem claim_C8_witness :
    textLed ⟨[ContentItem.text
      "✅ Gemini API token configured successfully! You can now use nano-banana image generation features."]⟩ :=
  claim_C8 exEnv emptyState "configure_gemini_token" [("apiKey", JValue.str "k")]
    ⟨[ContentItem.text
      "✅ Gemini API token configured successfully! You can now use nano-banana image generation features."]⟩
    (by rfl)

end NanoBanana
